import Mathlib

/-!
Verification of the frost-prediction core of proyecto_heladas_madrid.

Shallow embedding conventions:
* dates are modelled as integer epoch-day numbers (ℤ); a pandas Timestamp
  with a time-of-day component is a rational number of days, and
  normalize() is the floor to a whole day;
* numeric cell values are rationals (ℚ); a missing value (NaN) is None,
  so a column is a List (Option ℚ);
* the pretrained model artifacts (regressor, scaler, feature-name lists)
  are opaque external collaborators, passed as function parameters;
* the random noise stream of numpy is passed as an explicit function
  from the date to the drawn noise value;
* the IDW interpolators, which use float sqrt and cos, are embedded over
  the reals with Real.sqrt and Real.cos.
-/

namespace Heladas

/-! ## Calendar arithmetic

Conversion between epoch-day numbers and civil (year, month, day) dates,
needed because the gap filler groups history by calendar (month, day).
Integer division on ℤ here is Euclidean, which coincides with floor
division for the positive divisors used below. -/

/-- Epoch-day number of a civil date (Gregorian calendar, days since
1970-01-01). -/
def daysFromCivil (y m d : ℤ) : ℤ :=
  let y2 := if m ≤ 2 then y - 1 else y
  let era := y2 / 400
  let yoe := y2 - era * 400
  let mp := (m + 9) % 12
  let doy := (153 * mp + 2) / 5 + d - 1
  let doe := yoe * 365 + yoe / 4 - yoe / 100 + doy
  era * 146097 + doe - 719468

/-- Civil date (year, month, day) of an epoch-day number. -/
def civilFromDays (z : ℤ) : ℤ × ℤ × ℤ :=
  let z2 := z + 719468
  let era := z2 / 146097
  let doe := z2 % 146097
  let yoe := (doe - doe / 1460 + doe / 36524 - doe / 146096) / 365
  let y := yoe + era * 400
  let doy := doe - (365 * yoe + yoe / 4 - yoe / 100)
  let mp := (5 * doy + 2) / 153
  let d := doy - (153 * mp + 2) / 5 + 1
  let m := mp + (if mp < 10 then 3 else -9)
  (if m ≤ 2 then y + 1 else y, m, d)

/-- Month component of an epoch day (pandas .dt.month). -/
def mesOf (z : ℤ) : ℤ := (civilFromDays z).2.1

/-- Day-of-month component of an epoch day (pandas .dt.day). -/
def diaOf (z : ℤ) : ℤ := (civilFromDays z).2.2

/-- Normalization of a timestamp (rational days) to a calendar day:
pd.to_datetime(x).normalize() keeps the date and drops the time. -/
def normalizeDate (t : ℚ) : ℤ := ⌊t⌋

/-- The normalized query date both predictors compute on entry: the
caller's argument normalized, defaulting to the current time
(src/app/predictor.py lines 309-312, src/app/predictor_multiestacion.py
lines 291-294). -/
def fcOf (fechaConsulta : Option ℚ) (now : ℚ) : ℤ :=
  match fechaConsulta with
  | none => normalizeDate now
  | some t => normalizeDate t

/-! ## Data model

One row of the imputed historical CSV, as used by the single-station
predictor: the date and the target minimum-temperature column
(TMin_21205880_FLORES_CHIBCHA_MADRID).  The precipitation and
maximum-temperature covariate columns receive exactly the same
per-calendar-day treatment in the gap filler as the target (means by
(month, day) with a month-wide fallback, only without added noise); the
claims under verification depend only on the dates and on the target
column, so covariate columns are not repeated in the row type. -/

structure Fila where
  fecha : ℤ
  tmin : Option ℚ
  deriving Repr, DecidableEq

/-- Mean of the present (non-NaN) values of a column, as pandas
Series.mean(): missing values are skipped; the mean of an all-missing
column is itself missing. -/
def columnMean (xs : List (Option ℚ)) : Option ℚ :=
  let vs := xs.filterMap id
  if vs.length = 0 then none else some (vs.sum / vs.length)

/-- Greatest date present in a dataframe (df[Fecha].max()); 0 is a junk
value for the empty frame, which the source never queries. -/
def ultimaFecha (df : List Fila) : ℤ :=
  match df.map Fila.fecha with
  | [] => 0
  | x :: xs => xs.foldl max x

/-- The inclusive integer range [a, b] as a list (pd.date_range with
daily frequency). -/
def rangoFechas (a b : ℤ) : List ℤ :=
  (List.range (b + 1 - a).toNat).map (fun i : ℕ => a + (i : ℤ))

/-- Mean of the target over the rows of the given calendar (month, day):
df.groupby([Mes, Dia])[target].mean() looked up at (mes, dia); none when
that calendar day never occurs in the frame. -/
def promedioMesDia (df : List Fila) (mes dia : ℤ) : Option ℚ :=
  columnMean ((df.filter (fun r => mesOf r.fecha = mes ∧ diaOf r.fecha = dia)).map Fila.tmin)

/-- Month-wide fallback mean of the target:
df[df[Mes] == mes][target].mean(). -/
def promedioMes (df : List Fila) (mes : ℤ) : Option ℚ :=
  columnMean ((df.filter (fun r => mesOf r.fecha = mes)).map Fila.tmin)

/-- Ordered insertion by date, the building block of the sort. -/
def insertFecha (r : Fila) : List Fila → List Fila
  | [] => [r]
  | s :: rest => if r.fecha ≤ s.fecha then r :: s :: rest else s :: insertFecha r rest

/-- Sort of a dataframe by its date column (df.sort_values(Fecha)),
as a stable insertion sort. -/
def sortValuesFecha : List Fila → List Fila
  | [] => []
  | r :: rest => insertFecha r (sortValuesFecha rest)

/-- The per-date synthetic row of PredictorHeladas._simular_datos_faltantes
(loop body, src/app/predictor.py lines 131-160): the target value is the
historical (month, day) mean, falling back to the month-wide mean when
the exact calendar day never occurs in the history, plus the Gaussian
noise draw for that date (np.random.normal(0, 0.5), modelled by the
explicit stream noise : ℤ → ℚ). -/
def filaSimulada (df : List Fila) (noise : ℤ → ℚ) (f : ℤ) : Fila :=
  let base :=
    match promedioMesDia df (mesOf f) (diaOf f) with
    | some v => some v
    | none => promedioMes df (mesOf f)
  { fecha := f, tmin := base.map (fun v => v + noise f) }

/-- The body of PredictorHeladas._simular_datos_faltantes
(src/app/predictor.py lines 90-172): starting from a copy of the stored
history, if the requested date does not exceed the last stored date the
copy is returned unchanged; otherwise one synthetic row is appended for
every date in (ultima_fecha, fecha_hasta] and the result is re-sorted
chronologically.  The auxiliary Mes and Dia columns of the source are
computed on the fly, and dropping them plus reset_index are no-ops in
this representation. -/
def simularDatosFaltantes (df : List Fila) (fechaHasta : ℤ) (noise : ℤ → ℚ) : List Fila :=
  let dfExtendido := df
  let ultima := ultimaFecha dfExtendido
  if fechaHasta ≤ ultima then dfExtendido
  else
    let fechasFaltantes := rangoFechas (ultima + 1) fechaHasta
    let nuevasFilas := fechasFaltantes.map (filaSimulada dfExtendido noise)
    sortValuesFecha (dfExtendido ++ nuevasFilas)

/-! ## Risk classification

The first-match if/elif chain shared verbatim by
src/app/predictor.py lines 380-399, src/app/predictor_multiestacion.py
lines 398-407 and src/app/app.py lines 516-530 (the map colors differ
between the sites, the tier strings do not). -/

/-- Risk tier of a predicted temperature. -/
def clasificarRiesgo (t : ℚ) : String :=
  if t ≤ -2 then "MUY ALTO"
  else if t ≤ 0 then "ALTO"
  else if t ≤ 2 then "MEDIO"
  else if t ≤ 4 then "BAJO"
  else "MUY BAJO"

/-! ## Single-station predictor (src/app/predictor.py)

The object state is the loaded history plus the one-slot result cache.
The temperature and frost pipelines downstream of the truncated frame
(dropna, feature construction, reindex to the artifact feature list,
scaler transform, Ridge predict / decision_function: lines 330-369) are
driven by opaque pretrained artifacts, so they enter the embedding as
oracle parameters returning none exactly when feature construction
leaves zero complete rows; the deterministic feature construction
itself is embedded separately below for its own claims. -/

/-- Success value of PredictorHeladas.predecir: the resultado dict of
src/app/predictor.py lines 414-432, restricted to the fields the
verified properties mention (the remaining fields, such as the 7-day
summary statistics and the wall-clock timestamp, are further reads of
the same truncated frame). -/
structure Resultado where
  fecha_consulta : ℤ
  fecha_prediccion : ℤ
  temperatura_predicha : ℚ
  score_helada : ℚ
  helada_predicha : ℤ
  riesgo : String
  registros_usados : ℕ
  datos_simulados : Bool
  deriving Repr, DecidableEq

/-- Mutable state of a PredictorHeladas instance: the history dataframe
self.df and the cache slot self._ultima_prediccion. -/
structure EstadoPredictor where
  df : List Fila
  ultimaPrediccion : Option Resultado
  deriving Repr, DecidableEq

/-- The frost flag of src/app/predictor.py line 375:
1 if score_helada > 0 else 0. -/
def heladaFlag (score : ℚ) : ℤ := if 0 < score then 1 else 0

/-- The logistic probability of src/app/predictor.py lines 372-373:
1 / (1 + exp(-score)), expressed as a percentage. -/
noncomputable def probabilidadHelada (score : ℝ) : ℝ :=
  1 / (1 + Real.exp (-score)) * 100

/-- The body of PredictorHeladas.predecir (src/app/predictor.py lines
290-447).  Control flow, in source order: the cache short-circuit
(lines 302-305, which tests only cache presence and the force flag, not
the requested date); normalization of the query date, defaulting to the
current time (lines 308-312); gap filling up to the query date and
truncation to rows at or before it (lines 314-318); the minimum-row
check (lines 320-321); the temperature and frost pipelines (oracles
modeloTemp, modeloHelada, with their zero-feature-row error branches of
lines 335-336 and 360-361); flag, risk tier and resultado assembly
(lines 369-432); storing the resultado in the cache (line 435). -/
def PredictorHeladas.predecir (modeloTemp modeloHelada : List Fila → Option ℚ)
    (noise : ℤ → ℚ) (s : EstadoPredictor) (fechaConsulta : Option ℚ) (now : ℚ)
    (forzarRecalculo : Bool) : EstadoPredictor × (Resultado ⊕ String) :=
  match s.ultimaPrediccion, forzarRecalculo with
  | some r, false => (s, Sum.inl r)
  | _, _ =>
    let fc : ℤ := fcOf fechaConsulta now
    let dfCompleto := simularDatosFaltantes s.df fc noise
    let dfHastaHoy := dfCompleto.filter (fun r => r.fecha ≤ fc)
    if dfHastaHoy.length < 50 then (s, Sum.inr "Datos insuficientes para predicción")
    else
      match modeloTemp dfHastaHoy with
      | none => (s, Sum.inr "No se pudieron crear features de temperatura")
      | some tempPredicha =>
        match modeloHelada dfHastaHoy with
        | none => (s, Sum.inr "No se pudieron crear features de helada")
        | some score =>
          let resultado : Resultado :=
            { fecha_consulta := fc
              fecha_prediccion := fc + 1
              temperatura_predicha := tempPredicha
              score_helada := score
              helada_predicha := heladaFlag score
              riesgo := clasificarRiesgo tempPredicha
              registros_usados := dfHastaHoy.length
              datos_simulados := decide (ultimaFecha s.df < fc) }
          ({ s with ultimaPrediccion := some resultado }, Sum.inl resultado)

/-! ## Multi-station predictor (src/app/predictor_multiestacion.py)

Its history CSV carries one TMin column per station; the per-station
loop of lines 328-428 detects the station columns, builds the two
feature frames per station with the dedicated (Madrid) or unified
artifacts, and silently skips a station on insufficient rows, empty
feature frames or any exception.  That loop consumes the truncated
frame and the opaque artifacts only, so it enters the embedding as the
oracle porEstaciones from the truncated frame to the list of per-station
entries that survive; everything the verified claims test (date
handling, the date-keyed cache of lines 296-300 and 441-443, the
minimum-row check of lines 306-307, the empty-result check of lines
430-431, and the resultado dates of lines 435-439) is embedded
explicitly. -/

/-- One element of predicciones_estaciones
(src/app/predictor_multiestacion.py lines 409-420). -/
structure PrediccionEstacion where
  codigo : String
  nombre : String
  temperatura_predicha : ℚ
  probabilidad_helada : ℚ
  riesgo : String
  lat : Option ℚ
  lon : Option ℚ
  alt : ℚ
  deriving Repr, DecidableEq

/-- Success value of PredictorHeladasMulti.predecir
(src/app/predictor_multiestacion.py lines 435-439). -/
structure ResultadoMulti where
  fecha_consulta : ℤ
  fecha_prediccion : ℤ
  predicciones_estaciones : List PrediccionEstacion
  deriving Repr, DecidableEq

/-- Mutable state of a PredictorHeladasMulti instance: self.df,
self._ultima_prediccion and self._fecha_cache. -/
structure EstadoMulti where
  df : List Fila
  ultimaPrediccion : Option ResultadoMulti
  fechaCache : Option ℤ
  deriving Repr, DecidableEq

/-- The body of PredictorHeladasMulti.predecir
(src/app/predictor_multiestacion.py lines 283-445).  In source order:
normalization of the query date, defaulting to now (lines 291-294); the
cache check, which requires the cached date to equal the normalized
query date exactly (lines 296-300); truncation of the history to rows
at or before fecha_consulta minus one day, with no gap filling (lines
304-305); the 100-row minimum check (lines 306-307); the per-station
loop (oracle porEstaciones); the empty-result error (lines 430-431);
resultado assembly, where fecha_consulta is the truncation limit and
fecha_prediccion is the normalized query date itself (lines 435-439);
cache store (lines 442-443). -/
def PredictorHeladasMulti.predecir (porEstaciones : List Fila → List PrediccionEstacion)
    (s : EstadoMulti) (fechaConsulta : Option ℚ) (now : ℚ) (forzarRecalculo : Bool) :
    EstadoMulti × (ResultadoMulti ⊕ String) :=
  let fc : ℤ := fcOf fechaConsulta now
  let cacheHit : Option ResultadoMulti :=
    match forzarRecalculo, s.ultimaPrediccion with
    | false, some r => if s.fechaCache = some fc then some r else none
    | _, _ => none
  match cacheHit with
  | some r => (s, Sum.inl r)
  | none =>
    let fechaLimite := fc - 1
    let dfHoy := s.df.filter (fun row => row.fecha ≤ fechaLimite)
    if dfHoy.length < 100 then (s, Sum.inr "Datos insuficientes")
    else
      let predicciones := porEstaciones dfHoy
      if predicciones.length = 0 then (s, Sum.inr "No se generaron predicciones")
      else
        let resultado : ResultadoMulti :=
          { fecha_consulta := fechaLimite
            fecha_prediccion := fc
            predicciones_estaciones := predicciones }
        ({ s with ultimaPrediccion := some resultado, fechaCache := some fc }, Sum.inl resultado)

/-! ## IDW spatial interpolation (src/app/predictor_multiestacion.py lines 447-485)

The two source routines interpolar_idw and interpolar_probabilidad_helada
are line-for-line identical except for the station field they read
(temperatura_predicha versus probabilidad_helada), so they are embedded
as one accumulator loop applied to a field selector.  The float
trigonometry and square root are embedded over the reals. -/

/-- A predicciones_estaciones entry viewed through the four fields the
interpolators read, over ℝ. -/
structure EntradaIdw where
  temperatura_predicha : ℝ
  probabilidad_helada : ℝ
  lat : Option ℝ
  lon : Option ℝ

/-- Planar-approximation distance in km from the query point to a
station (src/app/predictor_multiestacion.py lines 454-456):
dlat = (station lat − lat)·111, dlon = (station lon − lon)·111·cos(radians lat),
dist = sqrt(dlat² + dlon²). -/
noncomputable def distanciaIdw (lat lon plat plon : ℝ) : ℝ :=
  let dlat := (plat - lat) * 111
  let dlon := (plon - lon) * 111 * Real.cos (lat * Real.pi / 180)
  Real.sqrt (dlat ^ 2 + dlon ^ 2)

/-- The accumulator loop shared by both interpolators
(src/app/predictor_multiestacion.py lines 450-465 and 470-485):
stations missing a coordinate are skipped; a station closer than
0.01 km short-circuits with its own value; otherwise the weight
1/dist^potencia and the weighted value accumulate, and the final result
is the weighted average when the total weight is positive, None
otherwise. -/
noncomputable def interpolarIdwGo (lat lon potencia : ℝ) (valor : EntradaIdw → ℝ) :
    List EntradaIdw → ℝ → ℝ → Option ℝ
  | [], pesosTotal, acum => if 0 < pesosTotal then some (acum / pesosTotal) else none
  | p :: rest, pesosTotal, acum =>
    match p.lat, p.lon with
    | some plat, some plon =>
      let d := distanciaIdw lat lon plat plon
      if d < 1 / 100 then some (valor p)
      else
        let peso := 1 / d ^ potencia
        interpolarIdwGo lat lon potencia valor rest (pesosTotal + peso) (acum + peso * valor p)
    | _, _ => interpolarIdwGo lat lon potencia valor rest pesosTotal acum

/-- PredictorHeladasMulti.interpolar_idw
(src/app/predictor_multiestacion.py lines 447-465): IDW over the
predicted temperatures. -/
noncomputable def PredictorHeladasMulti.interpolar_idw (lat lon : ℝ)
    (predicciones : List EntradaIdw) (potencia : ℝ) : Option ℝ :=
  interpolarIdwGo lat lon potencia EntradaIdw.temperatura_predicha predicciones 0 0

/-- PredictorHeladasMulti.interpolar_probabilidad_helada
(src/app/predictor_multiestacion.py lines 467-485): IDW over the frost
probabilities. -/
noncomputable def PredictorHeladasMulti.interpolar_probabilidad_helada (lat lon : ℝ)
    (predicciones : List EntradaIdw) (potencia : ℝ) : Option ℝ :=
  interpolarIdwGo lat lon potencia EntradaIdw.probabilidad_helada predicciones 0 0

/-! ## Ray-casting point-in-polygon (src/app/app.py lines 486-504)

The Python routine keeps a function-local variable xinters that is
assigned only under the guard p1_lon != p2_lon and read on the path
where p1_lat ≠ p2_lat; the embedding carries that variable as an
Option and turns a read of the unassigned variable — a Python
NameError — into Except.error, as it turns indexing an empty vertex
list.  So a run of the source that raises is exactly a run of the
embedding that returns an error value. -/

/-- One pass of the edge loop (src/app/app.py lines 493-502).  The
first argument pair is (p1_lat, p1_lon), the list holds the successive
(p2_lat, p2_lon) vertices, then the crossing flag dentro and the
current contents of xinters (none while unassigned). -/
def pipLoop (x y : ℚ) : ℚ × ℚ → List (ℚ × ℚ) → Bool → Option ℚ → Except Unit Bool
  | _, [], dentro, _ => Except.ok dentro
  | (p1lat, p1lon), (p2lat, p2lon) :: rest, dentro, xinters =>
    if min p1lon p2lon < y ∧ y ≤ max p1lon p2lon ∧ x ≤ max p1lat p2lat then
      let xinters2 :=
        if p1lon ≠ p2lon then
          some ((y - p1lon) * (p2lat - p1lat) / (p2lon - p1lon) + p1lat)
        else xinters
      if p1lat = p2lat then pipLoop x y (p2lat, p2lon) rest (!dentro) xinters2
      else
        match xinters2 with
        | none => Except.error ()
        | some xi => pipLoop x y (p2lat, p2lon) rest (if x ≤ xi then !dentro else dentro) xinters2
    else pipLoop x y (p2lat, p2lon) rest dentro xinters

/-- punto_en_poligono (src/app/app.py lines 486-504): x, y are the
query latitude and longitude; the loop visits poligono[i % n] for
i = 1..n, that is the tail of the vertex list followed by its head, and
indexing an empty list is the error value. -/
def punto_en_poligono (lat lon : ℚ) (poligono : List (ℚ × ℚ)) : Except Unit Bool :=
  match poligono with
  | [] => Except.error ()
  | p0 :: rest => pipLoop lat lon p0 (rest ++ [p0]) false none

/-! ## Feature engineering: lags and shifted rolling means

The lag and rolling-mean families of PredictorHeladas._crear_features_temperatura
(src/app/predictor.py lines 195-204) and of
PredictorHeladasMulti._crear_features_madrid
(src/app/predictor_multiestacion.py lines 124-133), which are
textually identical: TMIN_lag_k = target.shift(k) and
TMIN_ma_w = target.shift(1).rolling(w).mean().  A pandas column is a
List (Option ℚ) with None for NaN. -/

/-- pandas Series.shift(k): k leading NaN, the last k values fall off. -/
def shiftSerie (k : ℕ) (s : List (Option ℚ)) : List (Option ℚ) :=
  List.replicate k none ++ s.take (s.length - k)

/-- The trailing window of w positions ending at index i. -/
def ventana (w : ℕ) (s : List (Option ℚ)) (i : ℕ) : List (Option ℚ) :=
  (s.drop (i + 1 - w)).take w

/-- pandas Series.rolling(w).mean() at index i: defined only when the
full window of w positions exists (default min_periods = window) and
none of them is NaN, in which case it is their arithmetic mean. -/
def rollingMeanAt (w : ℕ) (s : List (Option ℚ)) (i : ℕ) : Option ℚ :=
  if w ≤ i + 1 then
    let vs := (ventana w s i).filterMap id
    if vs.length = w then some (vs.sum / (w : ℚ)) else none
  else none

/-- pandas Series.rolling(w).mean() as a whole column. -/
def rollingMean (w : ℕ) (s : List (Option ℚ)) : List (Option ℚ) :=
  (List.range s.length).map (rollingMeanAt w s)

/-- The TMIN_lag_k feature column of src/app/predictor.py line 197 and
src/app/predictor_multiestacion.py line 126. -/
def TMIN_lag (k : ℕ) (target : List (Option ℚ)) : List (Option ℚ) :=
  shiftSerie k target

/-- The TMIN_ma_w feature column of src/app/predictor.py line 201 and
src/app/predictor_multiestacion.py line 130: rolling mean of the
one-day-shifted target. -/
def TMIN_ma (w : ℕ) (target : List (Option ℚ)) : List (Option ℚ) :=
  rollingMean w (shiftSerie 1 target)

/-! ## Concrete fixtures

Closed instances used by the counterexamples and the witnesses: stub
model oracles (pretrained artifacts are opaque, so any concrete oracle
instantiates them), a silent noise stream, and small synthetic
histories. -/

/-- Stub temperature oracle: the regression pipeline returns 5 °C. -/
def mT0 : List Fila → Option ℚ := fun _ => some 5

/-- Stub frost oracle: the classification pipeline returns score 1. -/
def mH0 : List Fila → Option ℚ := fun _ => some 1

/-- Silent noise stream (every Gaussian draw is 0). -/
def nz0 : ℤ → ℚ := fun _ => 0

/-- Synthetic history of n rows at dates 0, 1, ..., n−1 with constant
target 5 °C. -/
def dfConst (n : ℕ) : List Fila :=
  (List.range n).map (fun i => { fecha := (i : ℤ), tmin := some 5 })

/-- Three-row history ending at 2024-01-10 (epoch days 19730-19732). -/
def dfEnero : List Fila :=
  [{ fecha := 19730, tmin := some 5 }, { fecha := 19731, tmin := some 5 },
   { fecha := 19732, tmin := some 5 }]

/-- A concrete surviving station entry (integer-valued stub
coordinates keep every fixture kernel-evaluable). -/
def entradaMadrid : PrediccionEstacion :=
  { codigo := "21205880", nombre := "Flores Chibcha", temperatura_predicha := 5,
    probabilidad_helada := 73, riesgo := "MUY BAJO",
    lat := some 5, lon := some (-74), alt := 2600 }

/-- Stub per-station loop for the multi-station predictor: one
surviving station entry. -/
def unaEstacion : List Fila → List PrediccionEstacion := fun _ => [entradaMadrid]

/-- The batch the stub multi-station predictor computes on the 150-row
history for query date 100. -/
def resultadoMulti100 : ResultadoMulti :=
  { fecha_consulta := 99, fecha_prediccion := 100,
    predicciones_estaciones := [entradaMadrid] }

/-- Station sitting exactly at the origin, for the near-station witness. -/
noncomputable def entradaCero : EntradaIdw :=
  { temperatura_predicha := 10, probabilidad_helada := 80, lat := some 0, lon := some 0 }

/-- Station 0.05 km east of the origin (longitude 1/2220 degrees on the
equator): within 0.1 km of the query point but not within 0.01 km. -/
noncomputable def entradaCercana : EntradaIdw :=
  { temperatura_predicha := 10, probabilidad_helada := 80, lat := some 0, lon := some (1 / 2220) }

/-- Station 1 km east of the origin (longitude 1/111 degrees on the
equator). -/
noncomputable def entradaLejana : EntradaIdw :=
  { temperatura_predicha := 20, probabilidad_helada := 60, lat := some 0, lon := some (1 / 111) }

/-- The rectangle with corners (0,0), (0,2), (2,2), (2,0) of the
testable properties. -/
def rectangulo : List (ℚ × ℚ) := [(0, 0), (0, 2), (2, 2), (2, 0)]

/-- The series 0, 1, ..., n of the feature-engineering property. -/
def serieRango (n : ℕ) : List (Option ℚ) :=
  (List.range (n + 1)).map (fun j : ℕ => some (j : ℚ))

/-- The resultado the stub single-station predictor computes on the
50-row constant history for query date 49. -/
def resultadoConst : Resultado :=
  { fecha_consulta := 49, fecha_prediccion := 50, temperatura_predicha := 5,
    score_helada := 1, helada_predicha := 1, riesgo := "MUY BAJO",
    registros_usados := 50, datos_simulados := false }

/-! ## Helper lemmas -/

/-- The frost flag is 1 exactly on strictly positive decision scores. -/
theorem heladaFlag_eq_one_iff (q : ℚ) : heladaFlag q = 1 ↔ 0 < q := by
  unfold heladaFlag
  split_ifs with h
  · simp [h]
  · simp [h]

/-- The logistic percentage exceeds 50 exactly on strictly positive
decision scores. -/
theorem probabilidadHelada_gt_50_iff (x : ℝ) : 50 < probabilidadHelada x ↔ 0 < x := by
  unfold probabilidadHelada
  have hE : 0 < Real.exp (-x) := Real.exp_pos _
  rw [div_mul_eq_mul_div, one_mul, lt_div_iff₀ (by linarith)]
  constructor
  · intro h
    have h1 : Real.exp (-x) < 1 := by linarith
    have h2 : -x < 0 := Real.exp_lt_one_iff.mp h1
    linarith
  · intro h
    have h1 : Real.exp (-x) < 1 := Real.exp_lt_one_iff.mpr (by linarith)
    linarith

/-- The edge loop of punto_en_poligono never reaches the unassigned
read of xinters: whenever the longitude guards of an iteration pass,
the two longitudes differ, so xinters was just assigned. -/
theorem pipLoop_ok (x y : ℚ) :
    ∀ (edges : List (ℚ × ℚ)) (p1 : ℚ × ℚ) (dentro : Bool) (xinters : Option ℚ),
      ∃ b, pipLoop x y p1 edges dentro xinters = Except.ok b := by
  intro edges
  induction edges with
  | nil =>
    intro p1 dentro xinters
    exact ⟨dentro, rfl⟩
  | cons e rest ih =>
    intro p1 dentro xinters
    obtain ⟨p1lat, p1lon⟩ := p1
    obtain ⟨p2lat, p2lon⟩ := e
    simp only [pipLoop]
    by_cases hg : min p1lon p2lon < y ∧ y ≤ max p1lon p2lon ∧ x ≤ max p1lat p2lat
    · rw [if_pos hg]
      by_cases hll : p1lon = p2lon
      · exfalso
        rw [hll, min_self, max_self] at hg
        linarith [hg.1, hg.2.1]
      · simp only [ne_eq, hll, not_false_eq_true, if_true]
        by_cases hlat : p1lat = p2lat
        · rw [if_pos hlat]
          exact ih _ _ _
        · rw [if_neg hlat]
          exact ih _ _ _
    · rw [if_neg hg]
      exact ih _ _ _

/-- On a cache miss — a forced recompute, an empty cache slot, or a
cached date different from the requested one — the multi-station
predictor runs the full compute path on the stored history. -/
theorem predecirMulti_compute (f : List Fila → List PrediccionEstacion)
    (s : EstadoMulti) (fechaC : Option ℚ) (now : ℚ) (fz : Bool)
    (hm : fz = true ∨ s.ultimaPrediccion = none ∨ s.fechaCache ≠ some (fcOf fechaC now)) :
    PredictorHeladasMulti.predecir f s fechaC now fz =
      (if (s.df.filter (fun row => row.fecha ≤ fcOf fechaC now - 1)).length < 100 then
        (s, Sum.inr "Datos insuficientes")
      else if (f (s.df.filter (fun row => row.fecha ≤ fcOf fechaC now - 1))).length = 0 then
        (s, Sum.inr "No se generaron predicciones")
      else
        (⟨s.df,
          some ⟨fcOf fechaC now - 1, fcOf fechaC now,
                f (s.df.filter (fun row => row.fecha ≤ fcOf fechaC now - 1))⟩,
          some (fcOf fechaC now)⟩,
         Sum.inl ⟨fcOf fechaC now - 1, fcOf fechaC now,
                  f (s.df.filter (fun row => row.fecha ≤ fcOf fechaC now - 1))⟩)) := by
  unfold PredictorHeladasMulti.predecir
  rcases fz with _ | _
  · rcases hu : s.ultimaPrediccion with _ | r
    · rfl
    · rcases hm with hm | hm | hm
      · exact absurd hm (by simp)
      · rw [hu] at hm; exact absurd hm (by simp)
      · dsimp only
        rw [if_neg hm]
  · rfl

/-- On a cache miss (forced recompute or empty cache slot — the single
predictor's cache check never looks at the date) the single-station
predictor runs the full compute path on the stored history. -/
theorem predecirSingle_compute (mT mH : List Fila → Option ℚ) (noise : ℤ → ℚ)
    (s : EstadoPredictor) (fechaC : Option ℚ) (now : ℚ) (fz : Bool)
    (hm : fz = true ∨ s.ultimaPrediccion = none) :
    PredictorHeladas.predecir mT mH noise s fechaC now fz =
      (if ((simularDatosFaltantes s.df (fcOf fechaC now) noise).filter
            (fun r => r.fecha ≤ fcOf fechaC now)).length < 50 then
        (s, Sum.inr "Datos insuficientes para predicción")
      else
        match mT ((simularDatosFaltantes s.df (fcOf fechaC now) noise).filter
            (fun r => r.fecha ≤ fcOf fechaC now)) with
        | none => (s, Sum.inr "No se pudieron crear features de temperatura")
        | some tempP =>
          match mH ((simularDatosFaltantes s.df (fcOf fechaC now) noise).filter
              (fun r => r.fecha ≤ fcOf fechaC now)) with
          | none => (s, Sum.inr "No se pudieron crear features de helada")
          | some score =>
            (⟨s.df,
              some ⟨fcOf fechaC now, fcOf fechaC now + 1, tempP, score, heladaFlag score,
                    clasificarRiesgo tempP,
                    ((simularDatosFaltantes s.df (fcOf fechaC now) noise).filter
                      (fun r => r.fecha ≤ fcOf fechaC now)).length,
                    decide (ultimaFecha s.df < fcOf fechaC now)⟩⟩,
             Sum.inl ⟨fcOf fechaC now, fcOf fechaC now + 1, tempP, score, heladaFlag score,
                      clasificarRiesgo tempP,
                      ((simularDatosFaltantes s.df (fcOf fechaC now) noise).filter
                        (fun r => r.fecha ≤ fcOf fechaC now)).length,
                      decide (ultimaFecha s.df < fcOf fechaC now)⟩)) := by
  unfold PredictorHeladas.predecir
  rcases fz with _ | _
  · rcases hu : s.ultimaPrediccion with _ | r
    · rfl
    · rcases hm with hm | hm
      · exact absurd hm (by simp)
      · rw [hu] at hm; exact absurd hm (by simp)
  · rcases hu : s.ultimaPrediccion with _ | r
    · rfl
    · rfl

/-- Fresh answers: when the cached date differs from the requested one,
the multi-station predictor answers exactly as a predictor with an
empty cache over the same history would. -/
theorem predecirMulti_snd_fresh (f : List Fila → List PrediccionEstacion)
    (s : EstadoMulti) (fechaC : Option ℚ) (now : ℚ)
    (hc : s.fechaCache ≠ some (fcOf fechaC now)) :
    (PredictorHeladasMulti.predecir f s fechaC now false).2 =
    (PredictorHeladasMulti.predecir f ⟨s.df, none, none⟩ fechaC now false).2 := by
  rw [predecirMulti_compute f s fechaC now false (Or.inr (Or.inr hc)),
      predecirMulti_compute f ⟨s.df, none, none⟩ fechaC now false (Or.inr (Or.inl rfl))]
  dsimp only
  by_cases h1 : (s.df.filter (fun row => row.fecha ≤ fcOf fechaC now - 1)).length < 100
  · simp only [if_pos h1]
  · simp only [if_neg h1]
    by_cases h2 : (f (s.df.filter (fun row => row.fecha ≤ fcOf fechaC now - 1))).length = 0
    · simp only [if_pos h2]
    · simp only [if_neg h2]

/-- A left fold by max is bounded below by its seed. -/
theorem foldl_max_le_acc : ∀ (xs : List ℤ) (a : ℤ), a ≤ xs.foldl max a
  | [], a => le_refl a
  | x :: xs, a => le_trans (le_max_left a x) (foldl_max_le_acc xs (max a x))

/-- A left fold by max bounds every member of the list. -/
theorem mem_le_foldl_max : ∀ (xs : List ℤ) (a x : ℤ), x ∈ xs → x ≤ xs.foldl max a
  | [], _, _, h => absurd h (List.not_mem_nil _)
  | y :: ys, a, x, h => by
    rcases List.mem_cons.mp h with rfl | hm
    · exact le_trans (le_max_right a x) (foldl_max_le_acc ys (max a x))
    · exact mem_le_foldl_max ys (max a y) x hm

/-- In a nondecreasing nonempty list, the last element is the max
fold. -/
theorem getLast?_foldl_max : ∀ (xs : List ℤ) (a : ℤ),
    List.Chain' (· ≤ ·) (a :: xs) → (a :: xs).getLast? = some (xs.foldl max a)
  | [], a, _ => rfl
  | b :: ys, a, h => by
    rw [List.chain'_cons] at h
    rw [List.getLast?_cons_cons, getLast?_foldl_max ys b h.2, List.foldl_cons,
        max_eq_right h.1]

/-- Every row's date is bounded by the frame's last date. -/
theorem ultimaFecha_cota (df : List Fila) (r : Fila) (h : r ∈ df) :
    r.fecha ≤ ultimaFecha df := by
  cases df with
  | nil => exact absurd h (List.not_mem_nil r)
  | cons d rest =>
    simp only [ultimaFecha, List.map_cons]
    rcases List.mem_cons.mp h with rfl | hm
    · exact foldl_max_le_acc _ _
    · exact mem_le_foldl_max _ _ _ (List.mem_map_of_mem Fila.fecha hm)

/-- In a chronologically sorted frame, the last row's date is
ultimaFecha. -/
theorem ultima_getLast?_map (df : List Fila) (hne : df ≠ [])
    (hs : List.Chain' (fun r s : Fila => r.fecha ≤ s.fecha) df) :
    (df.map Fila.fecha).getLast? = some (ultimaFecha df) := by
  cases df with
  | nil => exact absurd rfl hne
  | cons d rest =>
    have hmap : List.Chain' (· ≤ ·) ((d :: rest).map Fila.fecha) :=
      (List.chain'_map Fila.fecha).mpr hs
    simp only [List.map_cons] at hmap ⊢
    rw [getLast?_foldl_max _ _ hmap]
    simp only [ultimaFecha, List.map_cons]

/-- The mapped enumeration a, a+1, ... increases in steps of one. -/
theorem chain'_succ_range_map : ∀ (n : ℕ) (a : ℤ),
    List.Chain' (fun x y : ℤ => y = x + 1) ((List.range n).map (fun i : ℕ => a + (i : ℤ)))
  | 0, a => by simp
  | n + 1, a => by
    rw [List.range_succ_eq_map, List.map_cons, List.map_map]
    have hmap : (List.range n).map ((fun i : ℕ => a + (i : ℤ)) ∘ Nat.succ) =
        (List.range n).map (fun i : ℕ => (a + 1) + (i : ℤ)) := by
      apply List.map_congr_left
      intro x hx
      simp only [Function.comp]
      push_cast
      ring
    rw [hmap, List.chain'_cons']
    constructor
    · intro y hy
      cases n with
      | zero => simp at hy
      | succ m =>
        rw [List.range_succ_eq_map] at hy
        simp only [List.map_cons, List.head?_cons, Option.mem_def, Option.some.injEq] at hy
        omega
    · exact chain'_succ_range_map n (a + 1)

/-- Daily contiguity of the generated date range. -/
theorem chain'_succ_rangoFechas (a b : ℤ) :
    List.Chain' (fun x y : ℤ => y = x + 1) (rangoFechas a b) := by
  unfold rangoFechas
  exact chain'_succ_range_map _ _

/-- A nonempty date range starts at its lower bound. -/
theorem rangoFechas_head? (a b : ℤ) (h : a ≤ b) : (rangoFechas a b).head? = some a := by
  unfold rangoFechas
  have hn : (b + 1 - a).toNat = (b - a).toNat + 1 := by omega
  rw [hn, List.range_succ_eq_map]
  simp

/-- Sorting an already chronologically sorted frame changes nothing. -/
theorem sortValues_of_sorted : ∀ (l : List Fila),
    List.Chain' (fun r s : Fila => r.fecha ≤ s.fecha) l → sortValuesFecha l = l
  | [], _ => rfl
  | r :: rest, h => by
    rw [List.chain'_cons'] at h
    simp only [sortValuesFecha]
    rw [sortValues_of_sorted rest h.2]
    cases rest with
    | nil => rfl
    | cons s t =>
      simp only [insertFecha]
      rw [if_pos (h.1 s rfl)]

/-- In the extension branch, the gap filler is exactly the old frame
followed by one synthetic row per missing date: the concatenation is
already sorted, so the final sort is the identity. -/
theorem simular_append (df : List Fila) (e : ℤ) (noise : ℤ → ℚ)
    (hs : List.Chain' (fun r s : Fila => r.fecha ≤ s.fecha) df)
    (hlt : ultimaFecha df < e) :
    simularDatosFaltantes df e noise =
      df ++ (rangoFechas (ultimaFecha df + 1) e).map (filaSimulada df noise) := by
  unfold simularDatosFaltantes
  rw [if_neg (not_le.mpr hlt)]
  apply sortValues_of_sorted
  rw [List.chain'_append]
  refine ⟨hs, ?_, ?_⟩
  · rw [List.chain'_map]
    exact (chain'_succ_rangoFechas _ _).imp (fun hab => by
      simp only [filaSimulada]
      omega)
  · intro x hx y hy
    have hxb : x.fecha ≤ ultimaFecha df := ultimaFecha_cota df x (List.mem_of_mem_getLast? hx)
    rw [List.head?_map, rangoFechas_head? _ _ (by omega)] at hy
    simp only [Option.map_some', Option.mem_def, Option.some.injEq] at hy
    subst hy
    simp only [filaSimulada]
    omega

/-- First-match short-circuit of the IDW loop: if some station with
both coordinates lies strictly within 0.01 km, the loop returns the
selected value of the first such station — for both selectors at once,
whatever the accumulators already hold. -/
theorem interpolarIdwGo_cercana (lat lon potencia : ℝ) (valor1 valor2 : EntradaIdw → ℝ) :
    ∀ (l : List EntradaIdw) (w1 a1 w2 a2 : ℝ),
      (∃ p ∈ l, ∃ plat plon, p.lat = some plat ∧ p.lon = some plon ∧
        distanciaIdw lat lon plat plon < 1 / 100) →
      ∃ p ∈ l, (∃ plat plon, p.lat = some plat ∧ p.lon = some plon ∧
          distanciaIdw lat lon plat plon < 1 / 100) ∧
        interpolarIdwGo lat lon potencia valor1 l w1 a1 = some (valor1 p) ∧
        interpolarIdwGo lat lon potencia valor2 l w2 a2 = some (valor2 p) := by
  intro l
  induction l with
  | nil =>
    intro w1 a1 w2 a2 hex
    obtain ⟨p, hp, -⟩ := hex
    exact absurd hp (List.not_mem_nil p)
  | cons q rest ih =>
    intro w1 a1 w2 a2 hex
    rcases q with ⟨tv, pv, latO, lonO⟩
    rcases latO with _ | plat
    · obtain ⟨p, hp, plat1, plon1, hpl, hpo, hpd⟩ := hex
      rcases List.mem_cons.mp hp with rfl | hmem
      · exact absurd hpl (by simp)
      · obtain ⟨p2, hp2, hc2, he1, he2⟩ := ih w1 a1 w2 a2 ⟨p, hmem, plat1, plon1, hpl, hpo, hpd⟩
        exact ⟨p2, List.mem_cons_of_mem _ hp2, hc2, he1, he2⟩
    · rcases lonO with _ | plon
      · obtain ⟨p, hp, plat1, plon1, hpl, hpo, hpd⟩ := hex
        rcases List.mem_cons.mp hp with rfl | hmem
        · exact absurd hpo (by simp)
        · obtain ⟨p2, hp2, hc2, he1, he2⟩ := ih w1 a1 w2 a2 ⟨p, hmem, plat1, plon1, hpl, hpo, hpd⟩
          exact ⟨p2, List.mem_cons_of_mem _ hp2, hc2, he1, he2⟩
      · by_cases hd : distanciaIdw lat lon plat plon < 1 / 100
        · refine ⟨⟨tv, pv, some plat, some plon⟩, List.mem_cons_self _ _,
            ⟨plat, plon, rfl, rfl, hd⟩, ?_, ?_⟩
          · simp only [interpolarIdwGo]
            rw [if_pos hd]
          · simp only [interpolarIdwGo]
            rw [if_pos hd]
        · obtain ⟨p, hp, plat1, plon1, hpl, hpo, hpd⟩ := hex
          rcases List.mem_cons.mp hp with rfl | hmem
          · rw [Option.some.injEq] at hpl hpo
            subst hpl
            subst hpo
            exact absurd hpd hd
          · obtain ⟨p2, hp2, hc2, he1, he2⟩ :=
              ih (w1 + 1 / distanciaIdw lat lon plat plon ^ potencia)
                (a1 + 1 / distanciaIdw lat lon plat plon ^ potencia *
                  valor1 ⟨tv, pv, some plat, some plon⟩)
                (w2 + 1 / distanciaIdw lat lon plat plon ^ potencia)
                (a2 + 1 / distanciaIdw lat lon plat plon ^ potencia *
                  valor2 ⟨tv, pv, some plat, some plon⟩)
                ⟨p, hmem, plat1, plon1, hpl, hpo, hpd⟩
            refine ⟨p2, List.mem_cons_of_mem _ hp2, hc2, ?_, ?_⟩
            · simp only [interpolarIdwGo]
              rw [if_neg hd]
              exact he1
            · simp only [interpolarIdwGo]
              rw [if_neg hd]
              exact he2

/-! ## Claim theorems -/

/-- C2, counterexample to the claim as stated: the short-circuit
threshold in the source is 0.01 km, not 0.1 km.  A station 0.05 km from
the query point — within 100 m — does not short-circuit: with a second
station 1 km away the interpolation returns the weighted average
4020/401 ≈ 10.02, which is neither station's value. -/
theorem C2_counterexample :
    distanciaIdw 0 0 0 (1 / 2220) < 1 / 10 ∧
    PredictorHeladasMulti.interpolar_idw 0 0 [entradaCercana, entradaLejana] 2 =
      some (4020 / 401) ∧
    ((4020 : ℝ) / 401) ≠ entradaCercana.temperatura_predicha ∧
    ((4020 : ℝ) / 401) ≠ entradaLejana.temperatura_predicha := by
  have hcos : Real.cos ((0 : ℝ) * Real.pi / 180) = 1 := by
    norm_num
  have hdA : distanciaIdw 0 0 0 (1 / 2220) = 1 / 20 := by
    simp only [distanciaIdw]
    rw [hcos]
    have h1 : (((0 : ℝ) - 0) * 111) ^ 2 + ((1 / 2220 - 0) * 111 * 1) ^ 2 = (1 / 20) ^ 2 := by
      norm_num
    rw [h1, Real.sqrt_sq (by norm_num)]
  have hdB : distanciaIdw 0 0 0 (1 / 111) = 1 := by
    simp only [distanciaIdw]
    rw [hcos]
    have h1 : (((0 : ℝ) - 0) * 111) ^ 2 + ((1 / 111 - 0) * 111 * 1) ^ 2 = (1 : ℝ) ^ 2 := by
      norm_num
    rw [h1, Real.sqrt_sq (by norm_num)]
  refine ⟨by rw [hdA]; norm_num, ?_, by simp [entradaCercana]; norm_num,
    by simp [entradaLejana]; norm_num⟩
  unfold PredictorHeladasMulti.interpolar_idw
  simp only [entradaCercana, entradaLejana, interpolarIdwGo]
  rw [hdA, hdB]
  rw [if_neg (by norm_num), if_neg (by norm_num)]
  rw [show (2 : ℝ) = ((2 : ℕ) : ℝ) by norm_num, Real.rpow_natCast, Real.rpow_natCast]
  rw [if_pos (by norm_num)]
  norm_num

/-- C2, amended: the near-station short-circuit distance is 0.01 km
(10 m), not 0.1 km.  With that threshold the property holds of both
interpolators at once: whenever some station with known coordinates
lies strictly within 0.01 km of the query point, both return exactly
the value of one and the same such station (the first in list order)
instead of a weighted average, for any power ≥ 1. -/
theorem C2_estacion_cercana (lat lon potencia : ℝ) (preds : List EntradaIdw)
    (_hpow : 1 ≤ potencia)
    (h : ∃ p ∈ preds, ∃ plat plon, p.lat = some plat ∧ p.lon = some plon ∧
          distanciaIdw lat lon plat plon < 1 / 100) :
    ∃ p ∈ preds, (∃ plat plon, p.lat = some plat ∧ p.lon = some plon ∧
          distanciaIdw lat lon plat plon < 1 / 100) ∧
      PredictorHeladasMulti.interpolar_idw lat lon preds potencia =
        some p.temperatura_predicha ∧
      PredictorHeladasMulti.interpolar_probabilidad_helada lat lon preds potencia =
        some p.probabilidad_helada :=
  interpolarIdwGo_cercana lat lon potencia EntradaIdw.temperatura_predicha
    EntradaIdw.probabilidad_helada preds 0 0 0 0 h

/-- C5: for a nonempty history with strictly increasing dates, the gap
filler (a) returns the history unchanged whenever the requested end
date does not exceed the last stored date, (b) otherwise appends
exactly one row per date in (lastDate, endDate] so that the date column
becomes the old column followed by the contiguous range — in
particular (c) a history ending 2024-01-10 extended to 2024-01-13 gains
exactly the three dates 2024-01-11, 2024-01-12, 2024-01-13 — and (d)
maps a contiguous daily series to a contiguous daily series, sorted
chronologically. -/
theorem C5_gap_filler (df : List Fila) (noise : ℤ → ℚ) (hne : df ≠ [])
    (hsorted : List.Chain' (fun r s : Fila => r.fecha < s.fecha) df) :
    (∀ e, e ≤ ultimaFecha df → simularDatosFaltantes df e noise = df) ∧
    (∀ e, ultimaFecha df < e →
      (simularDatosFaltantes df e noise).map Fila.fecha =
        df.map Fila.fecha ++ rangoFechas (ultimaFecha df + 1) e) ∧
    (ultimaFecha df = daysFromCivil 2024 1 10 →
      (simularDatosFaltantes df (daysFromCivil 2024 1 13) noise).map Fila.fecha =
        df.map Fila.fecha ++ [daysFromCivil 2024 1 11, daysFromCivil 2024 1 12,
          daysFromCivil 2024 1 13]) ∧
    (List.Chain' (fun a b : ℤ => b = a + 1) (df.map Fila.fecha) →
      ∀ e, List.Chain' (fun a b : ℤ => b = a + 1)
        ((simularDatosFaltantes df e noise).map Fila.fecha)) := by
  have hle : List.Chain' (fun r s : Fila => r.fecha ≤ s.fecha) df :=
    hsorted.imp (fun _ _ h => le_of_lt h)
  have hfid : Fila.fecha ∘ filaSimulada df noise = id := funext fun x => rfl
  refine ⟨?_, ?_, ?_, ?_⟩
  · intro e he
    unfold simularDatosFaltantes
    rw [if_pos he]
  · intro e he
    rw [simular_append df e noise hle he, List.map_append, List.map_map, hfid, List.map_id]
  · intro hEq
    have hlt : ultimaFecha df < daysFromCivil 2024 1 13 := by
      rw [hEq]
      decide
    rw [simular_append df _ noise hle hlt, List.map_append, List.map_map, hfid, List.map_id,
        hEq]
    congr 1
  · intro hcont e
    by_cases he : e ≤ ultimaFecha df
    · unfold simularDatosFaltantes
      rw [if_pos he]
      exact hcont
    · push_neg at he
      rw [simular_append df e noise hle he, List.map_append, List.map_map, hfid, List.map_id]
      rw [List.chain'_append]
      refine ⟨hcont, chain'_succ_rangoFechas _ _, ?_⟩
      intro x hx y hy
      rw [ultima_getLast?_map df hne hle] at hx
      rw [rangoFechas_head? _ _ (by omega)] at hy
      simp only [Option.mem_def, Option.some.injEq] at hx hy
      omega

/-- Witness for C5 on the three-row January history: unchanged at end
date 2024-01-08, the three new dates at 2024-01-13, and contiguity of
the extension to epoch day 19735. -/
theorem C5_witness :
    simularDatosFaltantes dfEnero 19730 nz0 = dfEnero ∧
    (simularDatosFaltantes dfEnero (daysFromCivil 2024 1 13) nz0).map Fila.fecha =
      dfEnero.map Fila.fecha ++ [daysFromCivil 2024 1 11, daysFromCivil 2024 1 12,
        daysFromCivil 2024 1 13] ∧
    List.Chain' (fun a b : ℤ => b = a + 1)
      ((simularDatosFaltantes dfEnero 19735 nz0).map Fila.fecha) := by
  have hs : List.Chain' (fun r s : Fila => r.fecha < s.fecha) dfEnero := by
    norm_num [dfEnero, List.chain'_cons]
  have hcont : List.Chain' (fun a b : ℤ => b = a + 1) (dfEnero.map Fila.fecha) := by
    norm_num [dfEnero, List.chain'_cons]
  obtain ⟨h1, h2, h3, h4⟩ := C5_gap_filler dfEnero nz0 (by decide) hs
  exact ⟨h1 19730 (by decide), h3 (by decide), h4 hcont 19735⟩

/-- Witness for the amended C2: a station exactly at the query point is
returned directly by both interpolators. -/
theorem C2_witness :
    PredictorHeladasMulti.interpolar_idw 0 0 [entradaCero] 2 = some 10 ∧
    PredictorHeladasMulti.interpolar_probabilidad_helada 0 0 [entradaCero] 2 = some 80 := by
  have hd : distanciaIdw 0 0 0 0 = 0 := by
    simp only [distanciaIdw]
    have h1 : (((0 : ℝ) - 0) * 111) ^ 2 +
        ((0 - 0) * 111 * Real.cos (0 * Real.pi / 180)) ^ 2 = 0 := by
      norm_num
    rw [h1, Real.sqrt_zero]
  obtain ⟨p, hp, -, h1, h2⟩ := C2_estacion_cercana 0 0 2 [entradaCero] (by norm_num)
    ⟨entradaCero, List.mem_singleton_self _, 0, 0, rfl, rfl, by rw [hd]; norm_num⟩
  rw [List.mem_singleton] at hp
  subst hp
  exact ⟨h1, h2⟩

set_option maxRecDepth 8000 in
/-- C1, counterexample to the claim as stated: the single-station
predictor caches without keying on the date.  After predict(49) fills
the cache, predict(48) — a different normalized query date — returns
the cached batch of date 49 unchanged. -/
theorem C1_counterexample :
    (PredictorHeladas.predecir mT0 mH0 nz0
       (PredictorHeladas.predecir mT0 mH0 nz0 ⟨dfConst 50, none⟩ (some 49) 0 false).1
       (some 48) 0 false).2 = Sum.inl resultadoConst ∧
    resultadoConst.fecha_consulta = 49 ∧ normalizeDate 48 = 48 ∧ (49 : ℤ) ≠ 48 := by
  decide

/-- C1, amended: the date-keyed cache property holds of the
multi-station predictor only.  First, whenever the cached date differs
from the requested normalized date, the answer is the one an
empty-cache predictor over the same history would give; second, in the
two-call scenario predict(d1) then predict(d2) with d1 ≠ d2 (from an
empty cache), the second answer equals the fresh answer for d2, never
d1's cached batch.  The single-station predictor instead returns its
cached batch for any later query date (see the counterexample). -/
theorem C1_cache_fecha_exacta :
    (∀ (f : List Fila → List PrediccionEstacion) (s : EstadoMulti)
       (fechaC : Option ℚ) (now : ℚ),
       s.fechaCache ≠ some (fcOf fechaC now) →
       (PredictorHeladasMulti.predecir f s fechaC now false).2 =
       (PredictorHeladasMulti.predecir f ⟨s.df, none, none⟩ fechaC now false).2) ∧
    (∀ (f : List Fila → List PrediccionEstacion) (df : List Fila) (d1 d2 now1 now2 : ℚ),
       normalizeDate d1 ≠ normalizeDate d2 →
       (PredictorHeladasMulti.predecir f
          (PredictorHeladasMulti.predecir f ⟨df, none, none⟩ (some d1) now1 false).1
          (some d2) now2 false).2 =
       (PredictorHeladasMulti.predecir f ⟨df, none, none⟩ (some d2) now2 false).2) := by
  constructor
  · exact predecirMulti_snd_fresh
  · intro f df d1 d2 now1 now2 h
    rw [predecirMulti_compute f ⟨df, none, none⟩ (some d1) now1 false (Or.inr (Or.inl rfl))]
    dsimp only
    by_cases c1 : (df.filter (fun row => row.fecha ≤ fcOf (some d1) now1 - 1)).length < 100
    · rw [if_pos c1]
    · rw [if_neg c1]
      by_cases c2 : (f (df.filter (fun row => row.fecha ≤ fcOf (some d1) now1 - 1))).length = 0
      · rw [if_pos c2]
      · rw [if_neg c2]
        dsimp only
        have hne : (some (fcOf (some d1) now1) : Option ℤ) ≠ some (fcOf (some d2) now2) := by
          simp only [fcOf, ne_eq, Option.some.injEq]
          exact h
        exact predecirMulti_snd_fresh f _ (some d2) now2 hne

/-- Witness for the amended C1: a stale cached date (77) is ignored for
query date 100, and the predict(100)-then-predict(101) sequence answers
101 freshly. -/
theorem C1_witness :
    ((PredictorHeladasMulti.predecir unaEstacion ⟨dfConst 150, none, some 77⟩ (some 100) 0 false).2 =
     (PredictorHeladasMulti.predecir unaEstacion ⟨dfConst 150, none, none⟩ (some 100) 0 false).2) ∧
    ((PredictorHeladasMulti.predecir unaEstacion
        (PredictorHeladasMulti.predecir unaEstacion ⟨dfConst 150, none, none⟩ (some 100) 0 false).1
        (some 101) 0 false).2 =
     (PredictorHeladasMulti.predecir unaEstacion ⟨dfConst 150, none, none⟩ (some 101) 0 false).2) :=
  ⟨C1_cache_fecha_exacta.1 unaEstacion ⟨dfConst 150, none, some 77⟩ (some 100) 0 (by decide),
   C1_cache_fecha_exacta.2 unaEstacion (dfConst 150) 100 101 0 0 (by decide)⟩

/-- C3, counterexample to the claim as stated: a successful fresh batch
of the multi-station predictor for query date 100 carries
fecha_prediccion = 100, the normalized query date itself, not 101. -/
theorem C3_counterexample :
    (PredictorHeladasMulti.predecir unaEstacion ⟨dfConst 150, none, none⟩ (some 100) 0 false).2 =
      Sum.inl resultadoMulti100 ∧
    resultadoMulti100.fecha_prediccion = 100 ∧ fcOf (some 100) 0 = 100 ∧
    resultadoMulti100.fecha_prediccion ≠ fcOf (some 100) 0 + 1 := by
  decide

/-- C3, amended: every freshly computed successful batch of the
single-station predictor has fecha_prediccion = normalized query date
+ 1 (and fecha_consulta the normalized query date); the multi-station
predictor instead sets fecha_prediccion to the normalized query date
itself, and its fecha_consulta field to the day before — so there
fecha_prediccion is one day after the batch's own fecha_consulta field,
not after the caller's date. -/
theorem C3_fecha_prediccion :
    (∀ (mT mH : List Fila → Option ℚ) (noise : ℤ → ℚ) (s : EstadoPredictor)
       (fechaC : Option ℚ) (now : ℚ) (fz : Bool) (s2 : EstadoPredictor) (r : Resultado),
       s.ultimaPrediccion = none →
       PredictorHeladas.predecir mT mH noise s fechaC now fz = (s2, Sum.inl r) →
       r.fecha_prediccion = fcOf fechaC now + 1 ∧ r.fecha_consulta = fcOf fechaC now) ∧
    (∀ (f : List Fila → List PrediccionEstacion) (s : EstadoMulti)
       (fechaC : Option ℚ) (now : ℚ) (fz : Bool) (s2 : EstadoMulti) (r : ResultadoMulti),
       (fz = true ∨ s.ultimaPrediccion = none ∨ s.fechaCache ≠ some (fcOf fechaC now)) →
       PredictorHeladasMulti.predecir f s fechaC now fz = (s2, Sum.inl r) →
       r.fecha_prediccion = fcOf fechaC now ∧ r.fecha_consulta = fcOf fechaC now - 1) := by
  constructor
  · intro mT mH noise s fechaC now fz s2 r hcache h
    rw [predecirSingle_compute mT mH noise s fechaC now fz (Or.inr hcache)] at h
    split at h
    · simp at h
    · split at h
      · simp at h
      · split at h
        · simp at h
        · rw [Prod.mk.injEq] at h
          obtain ⟨-, h2⟩ := h
          rw [Sum.inl.injEq] at h2
          subst h2
          exact ⟨rfl, rfl⟩
  · intro f s fechaC now fz s2 r hm h
    rw [predecirMulti_compute f s fechaC now fz hm] at h
    split at h
    · simp at h
    · split at h
      · simp at h
      · rw [Prod.mk.injEq] at h
        obtain ⟨-, h2⟩ := h
        rw [Sum.inl.injEq] at h2
        subst h2
        exact ⟨rfl, rfl⟩

set_option maxRecDepth 8000 in
/-- Witness for the amended C3 on the concrete 50-row single-station
run for query date 49 and 150-row multi-station run for query date
100. -/
theorem C3_witness :
    (resultadoConst.fecha_prediccion = fcOf (some 49) 0 + 1 ∧
     resultadoConst.fecha_consulta = fcOf (some 49) 0) ∧
    (resultadoMulti100.fecha_prediccion = fcOf (some 100) 0 ∧
     resultadoMulti100.fecha_consulta = fcOf (some 100) 0 - 1) :=
  ⟨C3_fecha_prediccion.1 mT0 mH0 nz0 ⟨dfConst 50, none⟩ (some 49) 0 false
     ⟨dfConst 50, some resultadoConst⟩ resultadoConst rfl (by decide),
   C3_fecha_prediccion.2 unaEstacion ⟨dfConst 150, none, none⟩ (some 100) 0 false
     ⟨dfConst 150, some resultadoMulti100, some 100⟩ resultadoMulti100
     (Or.inr (Or.inl rfl)) (by decide)⟩

/-- C4, counterexample to the claim as stated: the multi-station
predictor requires 100 rows, not 50: with 60 usable rows (all dates at
or before query − 1) it still returns the insufficient-data error
value. -/
theorem C4_counterexample :
    (PredictorHeladasMulti.predecir unaEstacion ⟨dfConst 60, none, none⟩ (some 100) 0 false).2 =
      Sum.inr "Datos insuficientes" ∧
    (50 : ℕ) ≤ (List.filter (fun row => row.fecha ≤ fcOf (some 100) 0 - 1) (dfConst 60)).length := by
  decide

/-- C4, amended: on a fresh computation the single-station predictor
returns the batch-level insufficient-data error value exactly when the
extended-and-truncated history has fewer than 50 rows (with 50 or more
that error is impossible); the multi-station predictor truncates its
stored history to the day before the query without extending it and
uses threshold 100 instead of 50.  Both are error return values, not
exceptions — the embedded functions are total. -/
theorem C4_minimo_de_filas :
    (∀ (mT mH : List Fila → Option ℚ) (noise : ℤ → ℚ) (s : EstadoPredictor)
       (fechaC : Option ℚ) (now : ℚ) (fz : Bool),
       (fz = true ∨ s.ultimaPrediccion = none) →
       ((((simularDatosFaltantes s.df (fcOf fechaC now) noise).filter
           (fun r => r.fecha ≤ fcOf fechaC now)).length < 50 →
         (PredictorHeladas.predecir mT mH noise s fechaC now fz).2 =
           Sum.inr "Datos insuficientes para predicción") ∧
        (50 ≤ (((simularDatosFaltantes s.df (fcOf fechaC now) noise).filter
           (fun r => r.fecha ≤ fcOf fechaC now)).length) →
         (PredictorHeladas.predecir mT mH noise s fechaC now fz).2 ≠
           Sum.inr "Datos insuficientes para predicción"))) ∧
    (∀ (f : List Fila → List PrediccionEstacion) (s : EstadoMulti)
       (fechaC : Option ℚ) (now : ℚ) (fz : Bool),
       (fz = true ∨ s.ultimaPrediccion = none ∨ s.fechaCache ≠ some (fcOf fechaC now)) →
       (((s.df.filter (fun row => row.fecha ≤ fcOf fechaC now - 1)).length < 100 →
         (PredictorHeladasMulti.predecir f s fechaC now fz).2 = Sum.inr "Datos insuficientes") ∧
        (100 ≤ (s.df.filter (fun row => row.fecha ≤ fcOf fechaC now - 1)).length →
         (PredictorHeladasMulti.predecir f s fechaC now fz).2 ≠ Sum.inr "Datos insuficientes"))) := by
  constructor
  · intro mT mH noise s fechaC now fz hm
    rw [predecirSingle_compute mT mH noise s fechaC now fz hm]
    constructor
    · intro hlt
      rw [if_pos hlt]
    · intro hge
      rw [if_neg (not_lt.mpr hge)]
      rcases mT ((simularDatosFaltantes s.df (fcOf fechaC now) noise).filter
          (fun r => r.fecha ≤ fcOf fechaC now)) with _ | t
      · simp
      · rcases mH ((simularDatosFaltantes s.df (fcOf fechaC now) noise).filter
            (fun r => r.fecha ≤ fcOf fechaC now)) with _ | q
        · simp
        · simp
  · intro f s fechaC now fz hm
    rw [predecirMulti_compute f s fechaC now fz hm]
    constructor
    · intro hlt
      rw [if_pos hlt]
    · intro hge
      rw [if_neg (not_lt.mpr hge)]
      by_cases hz : (f (s.df.filter (fun row => row.fecha ≤ fcOf fechaC now - 1))).length = 0
      · rw [if_pos hz]
        simp
      · rw [if_neg hz]
        simp

set_option maxRecDepth 8000 in
/-- Witness for the amended C4: 30 rows trigger the single-station
error, 50 rows avoid it; 60 rows trigger the multi-station error, 150
rows (100 usable) avoid it. -/
theorem C4_witness :
    (PredictorHeladas.predecir mT0 mH0 nz0 ⟨dfConst 30, none⟩ (some 29) 0 false).2 =
      Sum.inr "Datos insuficientes para predicción" ∧
    (PredictorHeladas.predecir mT0 mH0 nz0 ⟨dfConst 50, none⟩ (some 49) 0 false).2 ≠
      Sum.inr "Datos insuficientes para predicción" ∧
    (PredictorHeladasMulti.predecir unaEstacion ⟨dfConst 60, none, none⟩ (some 100) 0 false).2 =
      Sum.inr "Datos insuficientes" ∧
    (PredictorHeladasMulti.predecir unaEstacion ⟨dfConst 150, none, none⟩ (some 100) 0 false).2 ≠
      Sum.inr "Datos insuficientes" :=
  ⟨(C4_minimo_de_filas.1 mT0 mH0 nz0 ⟨dfConst 30, none⟩ (some 29) 0 false (Or.inr rfl)).1
     (by decide),
   (C4_minimo_de_filas.1 mT0 mH0 nz0 ⟨dfConst 50, none⟩ (some 49) 0 false (Or.inr rfl)).2
     (by decide),
   (C4_minimo_de_filas.2 unaEstacion ⟨dfConst 60, none, none⟩ (some 100) 0 false
     (Or.inr (Or.inl rfl))).1 (by decide),
   (C4_minimo_de_filas.2 unaEstacion ⟨dfConst 150, none, none⟩ (some 100) 0 false
     (Or.inr (Or.inl rfl))).2 (by decide)⟩

/-- C6: the risk classification is a total, ordered, first-match,
non-overlapping partition of the (rational-valued) predicted
temperatures: MUY ALTO iff t ≤ −2, ALTO iff −2 < t ≤ 0, MEDIO iff
0 < t ≤ 2, BAJO iff 2 < t ≤ 4, MUY BAJO iff t > 4; being a function
into these five strings, it assigns exactly one tier to every t. -/
theorem C6_riesgo_particion (t : ℚ) :
    (clasificarRiesgo t = "MUY ALTO" ↔ t ≤ -2) ∧
    (clasificarRiesgo t = "ALTO" ↔ -2 < t ∧ t ≤ 0) ∧
    (clasificarRiesgo t = "MEDIO" ↔ 0 < t ∧ t ≤ 2) ∧
    (clasificarRiesgo t = "BAJO" ↔ 2 < t ∧ t ≤ 4) ∧
    (clasificarRiesgo t = "MUY BAJO" ↔ 4 < t) := by
  unfold clasificarRiesgo
  split_ifs with h1 h2 h3 h4 <;>
    refine ⟨?_, ?_, ?_, ?_, ?_⟩ <;> constructor <;> intro hh <;>
      first
        | rfl
        | linarith
        | exact absurd hh (by decide)
        | (refine ⟨by linarith, by linarith⟩)

/-- C8: the ray-casting point-in-polygon routine is total and fully
defined on every non-empty vertex ring: it always returns a boolean,
and in particular never reaches the path that would read the crossing
variable xinters before its assignment (that path is the Except.error
value of the embedding).  The routine is a pure function of its
arguments, so repeated calls on a fixed input return this same
boolean. -/
theorem C8_punto_en_poligono_total (lat lon : ℚ) (poligono : List (ℚ × ℚ))
    (h : poligono ≠ []) : ∃ b, punto_en_poligono lat lon poligono = Except.ok b := by
  match poligono with
  | [] => exact absurd rfl h
  | p0 :: rest => exact pipLoop_ok lat lon (rest ++ [p0]) p0 false none

/-- Witness for C8 at the rectangle (0,0), (0,2), (2,2), (2,0). -/
theorem C8_witness : punto_en_poligono 1 1 rectangulo ≠ Except.error () := by
  obtain ⟨b, hb⟩ := C8_punto_en_poligono_total 1 1 rectangulo (by decide)
  rw [hb]
  simp

/-- C9: the gap filler never mutates the stored historical series: the
df component of the predictor state is unchanged by any predecir call
(the extension operates on a copy of self.df), and whenever the
requested end date does not exceed the last stored date the gap filler
returns the history itself unchanged, so every prediction reads the
original data. -/
theorem C9_no_mutacion (mT mH : List Fila → Option ℚ) (noise : ℤ → ℚ)
    (s : EstadoPredictor) (fechaC : Option ℚ) (now : ℚ) (forzar : Bool) (e : ℤ) :
    (PredictorHeladas.predecir mT mH noise s fechaC now forzar).1.df = s.df ∧
    (e ≤ ultimaFecha s.df → simularDatosFaltantes s.df e noise = s.df) := by
  constructor
  · unfold PredictorHeladas.predecir
    split
    · rfl
    · dsimp only
      split
      · rfl
      · split
        · rfl
        · split
          · rfl
          · rfl
  · intro he
    unfold simularDatosFaltantes
    rw [if_pos he]

/-- Witness for C9 on the January history at end date 19731
(2024-01-09, one day before the last stored date). -/
theorem C9_witness :
    (PredictorHeladas.predecir mT0 mH0 nz0 ⟨dfEnero, none⟩ (some 19732) 0 false).1.df = dfEnero ∧
    simularDatosFaltantes dfEnero 19731 nz0 = dfEnero :=
  ⟨(C9_no_mutacion mT0 mH0 nz0 ⟨dfEnero, none⟩ (some 19732) 0 false 19731).1,
   (C9_no_mutacion mT0 mH0 nz0 ⟨dfEnero, none⟩ (some 19732) 0 false 19731).2 (by decide)⟩

/-- C10: every resultado computed by the single-station predictor (here
from a state whose cache slot is empty, so the success value really is
computed by this call) has its binary frost flag agreeing with the
logistic threshold: helada_predicha = 1 iff the decision score is
strictly positive iff the probability 1/(1+e^(-score))·100 exceeds
50. -/
theorem C10_flag_umbral_logistico (mT mH : List Fila → Option ℚ) (noise : ℤ → ℚ)
    (s : EstadoPredictor) (fechaC : Option ℚ) (now : ℚ) (fz : Bool)
    (s2 : EstadoPredictor) (r : Resultado)
    (hcache : s.ultimaPrediccion = none)
    (h : PredictorHeladas.predecir mT mH noise s fechaC now fz = (s2, Sum.inl r)) :
    (r.helada_predicha = 1 ↔ 0 < r.score_helada) ∧
    (0 < r.score_helada ↔ 50 < probabilidadHelada (r.score_helada : ℝ)) := by
  unfold PredictorHeladas.predecir at h
  rw [hcache] at h
  cases fz <;>
  · dsimp only at h
    split at h
    · simp at h
    · split at h
      · simp at h
      · split at h
        · simp at h
        · rw [Prod.mk.injEq] at h
          obtain ⟨-, h2⟩ := h
          rw [Sum.inl.injEq] at h2
          subst h2
          refine ⟨heladaFlag_eq_one_iff _, ?_⟩
          exact (Rat.cast_pos (K := ℝ)).symm.trans (probabilidadHelada_gt_50_iff _).symm

set_option maxRecDepth 8000 in
/-- Witness for C10 on the 50-row constant history at query date 49. -/
theorem C10_witness :
    (resultadoConst.helada_predicha = 1 ↔ 0 < resultadoConst.score_helada) ∧
    (0 < resultadoConst.score_helada ↔ 50 < probabilidadHelada (resultadoConst.score_helada : ℝ)) :=
  C10_flag_umbral_logistico mT0 mH0 nz0 ⟨dfConst 50, none⟩ (some 49) 0 false
    ⟨dfConst 50, some resultadoConst⟩ resultadoConst rfl (by decide)

/-- Length of the series 0..n. -/
theorem serieRango_length (n : ℕ) : (serieRango n).length = n + 1 := by
  simp [serieRango]

/-- Entry j of the series 0..n is j. -/
theorem serieRango_getElem (n j : ℕ) (h : j ≤ n) :
    (serieRango n)[j]? = some (some (j : ℚ)) := by
  unfold serieRango
  rw [List.getElem?_map, List.getElem?_eq_getElem (by simpa using Nat.lt_succ_of_le h)]
  simp

/-- Length of the one-day shift of the series 0..n. -/
theorem shift1_serie_length (n : ℕ) : (shiftSerie 1 (serieRango n)).length = n + 1 := by
  simp [shiftSerie, serieRango]

/-- Entry i of the one-day shift of the series 0..n is i−1, for
1 ≤ i ≤ n. -/
theorem shift1_serie_getElem (n i : ℕ) (h1 : 1 ≤ i) (h2 : i ≤ n) :
    (shiftSerie 1 (serieRango n))[i]? = some (some ((i - 1 : ℕ) : ℚ)) := by
  unfold shiftSerie
  rw [List.getElem?_append_right (by simpa using h1)]
  simp only [List.length_replicate, serieRango_length]
  rw [List.getElem?_take, if_pos (by omega)]
  exact serieRango_getElem n (i - 1) (by omega)

/-- The trailing window of width w ending at index i of the shifted
series 0..n enumerates i−w, ..., i−1. -/
theorem ventana_shift1_serie (n i w : ℕ) (_hw : 1 ≤ w) (hwi : w ≤ i) (hin : i ≤ n) :
    ventana w (shiftSerie 1 (serieRango n)) i =
      (List.range w).map (fun t => some ((i - w + t : ℕ) : ℚ)) := by
  apply List.ext_getElem?
  intro t
  unfold ventana
  rw [List.getElem?_take]
  by_cases ht : t < w
  · rw [if_pos ht, List.getElem?_drop,
      shift1_serie_getElem n ((i + 1 - w) + t) (by omega) (by omega)]
    rw [List.getElem?_map, List.getElem?_eq_getElem (by simpa using ht)]
    simp only [List.getElem_range, Option.map_some']
    have he : i + 1 - w + t - 1 = i - w + t := by omega
    rw [he]
  · rw [if_neg ht]
    symm
    exact List.getElem?_eq_none (by simpa using Nat.le_of_not_lt ht)

/-- C7: on the input series 0, 1, ..., n the feature construction gives
lag_1 at row i equal to i−1 for every 1 ≤ i ≤ n, and the rolling mean
over window w of the one-day-shifted series at row i equal to the mean
of the values at indices i−w, ..., i−1 (which are those indices
themselves) for every 1 ≤ w ≤ i ≤ n — the window never includes the
value at the row i being predicted. -/
theorem C7_lag_y_media_movil (n : ℕ) :
    (∀ i, 1 ≤ i → i ≤ n →
      (TMIN_lag 1 (serieRango n))[i]? = some (some ((i : ℚ) - 1))) ∧
    (∀ i w, 1 ≤ w → w ≤ i → i ≤ n →
      (TMIN_ma w (serieRango n))[i]? =
        some (some ((∑ j in Finset.Ico (i - w) i, (j : ℚ)) / (w : ℚ)))) := by
  constructor
  · intro i h1 h2
    unfold TMIN_lag
    rw [shift1_serie_getElem n i h1 h2]
    have : ((i - 1 : ℕ) : ℚ) = (i : ℚ) - 1 := by
      push_cast [h1]
      ring
    rw [this]
  · intro i w hw hwi hin
    unfold TMIN_ma rollingMean
    rw [List.getElem?_map,
      List.getElem?_eq_getElem (by simpa [shift1_serie_length] using Nat.lt_succ_of_le hin)]
    simp only [List.getElem_range, Option.map_some']
    unfold rollingMeanAt
    rw [if_pos (by omega)]
    rw [ventana_shift1_serie n i w hw hwi hin]
    rw [List.filterMap_map]
    dsimp only
    have hfm : List.filterMap (id ∘ fun t : ℕ => some ((i - w + t : ℕ) : ℚ)) (List.range w) =
        (List.range w).map (fun t : ℕ => ((i - w + t : ℕ) : ℚ)) :=
      congrFun (List.filterMap_eq_map _) _
    rw [hfm]
    simp only [List.length_map, List.length_range, if_true]
    have hsum : ((List.range w).map (fun t => ((i - w + t : ℕ) : ℚ))).sum =
        ∑ j in Finset.Ico (i - w) i, (j : ℚ) := by
      rw [Finset.sum_Ico_eq_sum_range]
      have hw2 : i - (i - w) = w := by omega
      rw [hw2]
      rfl
    rw [hsum]

/-- Witness for C7 at n = 10, i = 5, w = 3. -/
theorem C7_witness :
    (TMIN_lag 1 (serieRango 10))[5]? = some (some ((5 : ℚ) - 1)) ∧
    (TMIN_ma 3 (serieRango 10))[5]? =
      some (some ((∑ j in Finset.Ico (5 - 3 : ℕ) 5, (j : ℚ)) / ((3 : ℕ) : ℚ))) :=
  ⟨(C7_lag_y_media_movil 10).1 5 (by decide) (by decide),
   (C7_lag_y_media_movil 10).2 5 3 (by decide) (by decide) (by decide)⟩

end Heladas
